import Mathlib

/-
  Shallow embedding of `runscan.py` (scanapi command-line client) and proofs
  about its result-enrichment pipeline, target filtering, purge command and
  HTTP requestor.

  Conventions of the embedding:
  * Python dicts that act as records become Lean structures with the same
    field names (`seentitles`, `details`, `level`, `owner`, ...).
  * The network is modelled by oracles: a response function passed in as an
    argument (`lookup` for the ownership service, `responses` for the scan
    service).  The functions return, beside their value, the list of requests
    they issue, so that "a request was issued" is a provable statement.
  * Real-time data (the UTC timestamp placed in indicator records and events)
    is omitted from the records: it is nondeterministic wall-clock input and
    no claim mentions it.
  * Exceptions become `Except`; a Python function that cannot raise becomes a
    total Lean function.
-/

namespace Runscan

/-- A vulnerability entry of a host result: `name` (the dedup key) and
`risk` (one of critical/high/medium/low or anything else). -/
structure Vuln where
  name : String
  risk : String
  deriving DecidableEq

/-- The per-host `details` dict built by `execute_indicators`
(`runscan.py` lines 153-159): four bucket counters and a coverage flag. -/
structure Details where
  maximum : Nat
  high : Nat
  medium : Nat
  low : Nat
  coverage : Bool
  deriving DecidableEq

/-- Initial value of `details` (all counters 0, coverage false). -/
def initDetails : Details :=
  { maximum := 0, high := 0, medium := 0, low := 0, coverage := false }

/-- Loop state of the per-host vulnerability scan in `execute_indicators`:
the `seentitles` list, the `details` counters and the running-maximum
severity `level`. -/
structure IndState where
  seentitles : List String
  details : Details
  level : Nat
  deriving DecidableEq

/-- The ordinal a risk string is classified into by the if/elif chain of
`execute_indicators` (critical=4, high=3, medium=2, low=1, other=0). -/
def riskOrdinal (risk : String) : Nat :=
  if risk = "critical" then 4
  else if risk = "high" then 3
  else if risk = "medium" then 2
  else if risk = "low" then 1
  else 0

/-- The branch of `execute_indicators` lines 161-178 for one vulnerability
entry: choose the ordinal `tv` and the updated `details`, incrementing the
matching bucket only when the name has not been seen yet. -/
def indChoice (s : IndState) (v : Vuln) : Nat × Details :=
  if v.risk = "critical" then
    (4, if v.name ∉ s.seentitles then
          { s.details with maximum := s.details.maximum + 1 } else s.details)
  else if v.risk = "high" then
    (3, if v.name ∉ s.seentitles then
          { s.details with high := s.details.high + 1 } else s.details)
  else if v.risk = "medium" then
    (2, if v.name ∉ s.seentitles then
          { s.details with medium := s.details.medium + 1 } else s.details)
  else if v.risk = "low" then
    (1, if v.name ∉ s.seentitles then
          { s.details with low := s.details.low + 1 } else s.details)
  else
    (0, s.details)

/-- One iteration of the `for v in x['vulnerabilities']` loop
(lines 160-181): update the buckets, append the name to `seentitles`
unconditionally, and raise `level` to `tv` when `tv > level`. -/
def indStep (s : IndState) (v : Vuln) : IndState :=
  { seentitles := s.seentitles ++ [v.name],
    details := (indChoice s v).2,
    level := if (indChoice s v).1 > s.level then (indChoice s v).1 else s.level }

/-- Loop state before the first iteration (lines 147-159):
`level = 1`, empty `seentitles`, zeroed `details`. -/
def initIndState : IndState :=
  { seentitles := [], details := initDetails, level := 1 }

/-- The whole per-host vulnerability scan: fold `indStep` over the
vulnerability list from the initial state. -/
def runVulns (vulns : List Vuln) : IndState :=
  vulns.foldl indStep initIndState

/-- The level-to-label chain of lines 184-191
(4 to maximum, 3 to high, 2 to medium, anything else to low). -/
def likelihoodLabel (level : Nat) : String :=
  if level = 4 then "maximum"
  else if level = 3 then "high"
  else if level = 2 then "medium"
  else "low"

/-- The per-host outcome of `execute_indicators` (lines 147-193): the final
`details` (with `coverage` set when `credentialed_checks` holds) and the
`likelihood_indicator` string. -/
def hostIndicator (credentialed_checks : Bool) (vulns : List Vuln) :
    Details × String :=
  let s := runVulns vulns
  if credentialed_checks then
    ({ s.details with coverage := true }, likelihoodLabel s.level)
  else
    (s.details, "unknown")

/-- An `owner` annotation attached to a host result by `execute_ownership`
(lines 228-232): `operator`, `team` and `v2bkey`. -/
structure Owner where
  operator : String
  team : String
  v2bkey : String
  deriving DecidableEq

/-- A parsed response of the ownership service (or the default substituted
on a non-200 response): `operator`, `team` and `triagekey`. -/
structure OwnerResp where
  operator : String
  team : String
  triagekey : String
  deriving DecidableEq

/-- The default dict substituted when an ownership lookup does not return
HTTP 200 (lines 219-223). -/
def unsetOwnerResp : OwnerResp :=
  { operator := "unset", team := "unset", triagekey := "unset-unset" }

/-- The owner dict written into a host entry from a looked-up response
(lines 228-232): `triagekey` is stored under the key `v2bkey`. -/
def ownerFrom (r : OwnerResp) : Owner :=
  { operator := r.operator, team := r.team, v2bkey := r.triagekey }

/-- One host entry of `results.details`.  Fields as in the result documents
consumed by `runscan.py`; `owner` is absent (`none`) until ownership
annotation attaches it. -/
structure HostResult where
  hostname : String
  ipaddress : String
  os : String
  vulnerabilities : List Vuln
  scan_start : String
  scan_end : String
  credentialed_checks : Bool
  owner : Option Owner := none
  deriving DecidableEq

/-- The scan-result content operated on by `ScanAPIServices`:
the result set's `zone` and the list of host entries (`details`). -/
structure ScanContent where
  zone : String
  details : List HostResult
  deriving DecidableEq

/-- An indicator record built by `execute_indicators` (lines 194-203).
The constant description/source fields and the wall-clock timestamp are
omitted; the claim-relevant fields are kept. -/
structure Indicator where
  asset_identifier : String
  zone : String
  likelihood_indicator : String
  details : Details
  deriving DecidableEq

/-- The indicator records POSTed by `execute_indicators`, one per host entry
in order.  The function only reads the content; a failed POST merely logs a
warning, so no failure value exists. -/
def execute_indicators (c : ScanContent) : List Indicator :=
  c.details.map (fun x =>
    let r := hostIndicator x.credentialed_checks x.vulnerabilities
    { asset_identifier := x.hostname, zone := c.zone,
      likelihood_indicator := r.2, details := r.1 })

/-- The `respmap` built by `execute_ownership` (lines 211-223), as a
function: the parsed body on a 200 response (`lookup x = some o`), the
default unset dict otherwise.  `lookup` is the ownership-service oracle. -/
def respmap (lookup : String → Option OwnerResp) (x : String) : OwnerResp :=
  match lookup x with
  | some o => o
  | none => unsetOwnerResp

/-- One pass of the annotation loop of lines 224-232 for a single hostname
`x`: every entry whose hostname equals `x` gets `owner` set from `resp`,
every other entry is untouched. -/
def annotatePass (resp : OwnerResp) (x : String) (details : List HostResult) :
    List HostResult :=
  details.map (fun y =>
    if y.hostname = x then { y with owner := some (ownerFrom resp) } else y)

/-- `execute_ownership` (lines 209-232): collect the set of distinct
hostnames, look each one up once, then annotate every matching entry.
Returns the annotated entries together with the list of hostnames that were
looked up (one lookup per element of that list). -/
def execute_ownership (lookup : String → Option OwnerResp)
    (details : List HostResult) : List HostResult × List String :=
  let hosts := (details.map HostResult.hostname).dedup
  (hosts.foldl (fun ds x => annotatePass (respmap lookup x) x ds) details, hosts)

/-- `ScanAPIServices.execute` (lines 136-139): run indicator computation,
then ownership annotation, and return the (possibly modified) content.
Indicator computation only reads the content, so the content change is
exactly the ownership annotation. -/
def execute (lookup : String → Option OwnerResp) (c : ScanContent) :
    List Indicator × ScanContent :=
  (execute_indicators c,
   { c with details := (execute_ownership lookup c.details).1 })

/-- Request methods dispatched by `ScanAPIRequestor.request` (lines 41-49).
Any other method string raises `ValueError` before any request is made; the
three valid ones are modelled. -/
inductive Method where
  | get
  | post
  | delete
  deriving DecidableEq

/-- `ScanAPIRequestor.request` (lines 40-57) against a response oracle
`responses` (call index to status code and body).  One request is issued
(the oracle is consulted at index 0 only); a status different from
`requests.codes.ok` (which is exactly 200) raises, modelled as
`Except.error` carrying the status code; otherwise the body is stored. -/
def request (method : Method) (responses : Nat → Nat × String) :
    Except Nat String :=
  match method with
  | _ =>
    let r := responses 0
    if r.1 ≠ 200 then Except.error r.1 else Except.ok r.2

/-- A request record: endpoint, method and the `olderthan` parameter sent by
the purge operation. -/
structure Req where
  ep : String
  method : Method
  olderthan : Int
  deriving DecidableEq

/-- Accumulator loop of a decimal parse over characters. -/
def digits_go : List Char → Nat → Option Nat
  | [], acc => some acc
  | c :: cs, acc =>
    if c.isDigit then digits_go cs (acc * 10 + (c.toNat - 48)) else none

/-- Decimal digits to a number; `none` on empty input or a non-digit. -/
def digits_to_nat : List Char → Option Nat
  | [] => none
  | cs => digits_go cs 0

/-- Model of Python `int()` on a character list: optional sign followed by
decimal digits (as used on the purge `seconds` argument, line 60). -/
def int_of_chars : List Char → Option Int
  | [] => none
  | '-' :: cs => (digits_to_nat cs).map (fun n => -(n : Int))
  | cs => (digits_to_nat cs).map (fun n => (n : Int))

/-- Model of Python `int()` on a string. -/
def int_of_string (s : String) : Option Int :=
  int_of_chars s.data

/-- `ScanAPIRequestor.purge_scans` (lines 59-61): the DELETE request issued
to `scan/purge` with `olderthan` set to `int(seconds)`; `none` when the
argument is not an integer string (then `int()` raises and no request is
made). -/
def requestor_purge_scans (seconds : String) : Option Req :=
  (int_of_string seconds).map
    (fun n => { ep := "scan/purge", method := Method.delete, olderthan := n })

/-- The command-level `purge_scans` (lines 264-265): delegate to the
requestor and print the returned JSON.  Result: the list of requests issued
and the printed output (`none` when `int()` raised, so nothing was printed).
`body` is the response body the server returns for the purge request. -/
def purge_scans (seconds : String) (body : String) :
    List Req × Option String :=
  match requestor_purge_scans seconds with
  | some r => ([r], some body)
  | none => ([], none)

/-- Split a character list at every occurrence of `sep`;
`acc` holds the characters of the current piece in reverse. -/
def splitChars (sep : Char) : List Char → List Char → List (List Char)
  | [], acc => [acc.reverse]
  | c :: cs, acc =>
    if c = sep then acc.reverse :: splitChars sep cs []
    else splitChars sep cs (c :: acc)

/-- Parse one dotted-quad octet: decimal digits with value at most 255. -/
def parseOctet (cs : List Char) : Option Nat :=
  match digits_to_nat cs with
  | some n => if n ≤ 255 then some n else none
  | none => none

/-- Model of `netaddr.IPAddress` on the IPv4 dotted-quad grammar: four
decimal octets separated by dots, as the 32-bit value; `none` (the library
raises `AddrFormatError`) on anything else. -/
def IPAddress (t : String) : Option Nat :=
  match (splitChars '.' t.data []).mapM parseOctet with
  | some [a, b, c, d] => some (((a * 256 + b) * 256 + c) * 256 + d)
  | _ => none

/-- Model of `netaddr.IPNetwork` on the IPv4 grammar: an address with an
optional `/prefixlen` (a bare address means `/32`); the value is the pair
(address, prefix length); `none` when the entry is malformed (the library
raises). -/
def IPNetwork (s : String) : Option (Nat × Nat) :=
  match splitChars '/' s.data [] with
  | [addr] => (IPAddress (String.mk addr)).map (fun ip => (ip, 32))
  | [addr, plen] =>
    match IPAddress (String.mk addr), digits_to_nat plen with
    | some ip, some n => if n ≤ 32 then some (ip, n) else none
    | _, _ => none
  | _ => none

/-- Membership of an address in a network (`ip in IPNetwork(i)`): the two
addresses agree on the first `prefixlen` bits. -/
def inNetwork (ip : Nat) (net : Nat × Nat) : Bool :=
  ip / 2 ^ (32 - net.2) = net.1 / 2 ^ (32 - net.2)

/-- The `for i in filters` loop of `target_filter` (lines 289-292): return
true at the first subnet containing the address; constructing `IPNetwork(i)`
for a malformed entry raises, modelled as `Except.error ()`, so a malformed
entry reached before any match aborts the check. -/
def target_filter_loop (ip : Nat) : List String → Except Unit Bool
  | [] => Except.ok false
  | i :: rest =>
    match IPNetwork i with
    | none => Except.error ()
    | some net =>
      if inNetwork ip net then Except.ok true else target_filter_loop ip rest

/-- `target_filter` (lines 284-292): a target that does not parse as an IP
address is never filtered (`ok false`); otherwise the filters are scanned in
order. -/
def target_filter (t : String) (filters : List String) : Except Unit Bool :=
  match IPAddress t with
  | none => Except.ok false
  | some ip => target_filter_loop ip filters

/-- `load_subnet_filters` (lines 276-282): with no path configured the
filter list is empty; otherwise the raw lines of the file are returned
unparsed (the function never inspects their content). -/
def load_subnet_filters (path : Option (List String)) : List String :=
  match path with
  | none => []
  | some lines => lines

/-- The filtering comprehension of `domain` (line 354):
`[x for x in targets if not target_filter(x, filters)]`, with an exception
from `target_filter` propagating out of the whole comprehension. -/
def filter_targets : List String → List String → Except Unit (List String)
  | [], _ => Except.ok []
  | t :: ts, filters =>
    match target_filter t filters with
    | Except.error e => Except.error e
    | Except.ok true => filter_targets ts filters
    | Except.ok false => (filter_targets ts filters).map (fun r => t :: r)

/-- Whether a target is kept by the comprehension of line 354:
`target_filter` returned false (and did not raise). -/
def target_kept (t : String) (filters : List String) : Bool :=
  match target_filter t filters with
  | Except.ok false => true
  | _ => false

theorem indChoice_fst (s : IndState) (v : Vuln) :
    (indChoice s v).1 = riskOrdinal v.risk := by
  simp only [indChoice, riskOrdinal]
  split_ifs <;> rfl

theorem indStep_level (s : IndState) (v : Vuln) :
    (indStep s v).level = max s.level (riskOrdinal v.risk) := by
  simp only [indStep, indChoice_fst]
  rw [Nat.max_def]
  split_ifs <;> omega

theorem indStep_details_seen (s : IndState) (v : Vuln)
    (h : v.name ∈ s.seentitles) : (indStep s v).details = s.details := by
  simp only [indStep, indChoice]
  split_ifs <;> simp_all

theorem indStep_seentitles (s : IndState) (v : Vuln) :
    (indStep s v).seentitles = s.seentitles ++ [v.name] := rfl

theorem indStep_coverage (s : IndState) (v : Vuln) :
    (indStep s v).details.coverage = s.details.coverage := by
  simp only [indStep, indChoice]
  split_ifs <;> rfl

theorem foldl_indStep_seentitles (l : List Vuln) :
    ∀ s : IndState, (l.foldl indStep s).seentitles
      = s.seentitles ++ l.map Vuln.name := by
  induction l with
  | nil => intro s; simp
  | cons v vs ih =>
    intro s
    rw [List.foldl_cons, ih, indStep_seentitles]
    simp

theorem foldl_indStep_coverage (l : List Vuln) :
    ∀ s : IndState, (l.foldl indStep s).details.coverage
      = s.details.coverage := by
  induction l with
  | nil => intro s; rfl
  | cons v vs ih =>
    intro s
    rw [List.foldl_cons, ih, indStep_coverage]

theorem runVulns_seentitles (l : List Vuln) :
    (runVulns l).seentitles = l.map Vuln.name := by
  simp [runVulns, foldl_indStep_seentitles]
  rfl

theorem runVulns_coverage (l : List Vuln) :
    (runVulns l).details.coverage = false := by
  simp [runVulns, foldl_indStep_coverage]
  rfl

theorem runVulns_append_one (l : List Vuln) (w : Vuln) :
    runVulns (l ++ [w]) = indStep (runVulns l) w := by
  simp [runVulns, List.foldl_append]

theorem runVulns_append_one_details (l : List Vuln) (w : Vuln)
    (h : w.name ∈ l.map Vuln.name) :
    (runVulns (l ++ [w])).details = (runVulns l).details := by
  rw [runVulns_append_one]
  exact indStep_details_seen _ _ (by rw [runVulns_seentitles]; exact h)

theorem indStep_zero_risk (s : IndState) (v : Vuln)
    (h : riskOrdinal v.risk = 0) :
    indStep s v = { seentitles := s.seentitles ++ [v.name],
                    details := s.details, level := s.level } := by
  simp only [riskOrdinal] at h
  split_ifs at h with h1 h2 h3 h4
  have hlt : ¬ ((0 : Nat) > s.level) := by omega
  simp [indStep, indChoice, if_neg h1, if_neg h2, if_neg h3, if_neg h4, hlt]

theorem foldl_indStep_zero_risk (l : List Vuln) :
    ∀ s : IndState, (∀ v ∈ l, riskOrdinal v.risk = 0) →
      (l.foldl indStep s).details = s.details
        ∧ (l.foldl indStep s).level = s.level := by
  induction l with
  | nil => intro s _; exact ⟨rfl, rfl⟩
  | cons v vs ih =>
    intro s h
    rw [List.foldl_cons, indStep_zero_risk s v (h v (List.mem_cons_self v vs))]
    exact ih _ (fun w hw => h w (List.mem_cons_of_mem v hw))

theorem likelihoodLabel_ne_unknown (level : Nat) :
    likelihoodLabel level ≠ "unknown" := by
  simp only [likelihoodLabel]
  split_ifs <;> decide

/-- Claim C1: in indicator computation the bucket counters are tallied at
most once per distinct vulnerability name (an entry whose name is already in
`seentitles` leaves `details` unchanged), while the running-maximum severity
`level` is updated by every entry including repeats; and on the input
`[(A, high), (A, high), (B, low)]` with credentialed checks the result is
the details record (maximum 0, high 1, medium 0, low 1, coverage true) with
likelihood indicator "high". -/
theorem claim1_indicator_dedup_counts_not_max :
    (∀ (s : IndState) (v : Vuln), v.name ∈ s.seentitles →
      (indStep s v).details = s.details)
    ∧ (∀ (s : IndState) (v : Vuln),
        (indStep s v).level = max s.level (riskOrdinal v.risk))
    ∧ hostIndicator true [⟨"A", "high"⟩, ⟨"A", "high"⟩, ⟨"B", "low"⟩]
        = ({ maximum := 0, high := 1, medium := 0, low := 1,
             coverage := true }, "high") :=
  ⟨indStep_details_seen, indStep_level, by decide⟩

/-- Witness for C1: the dedup part and the running-maximum part applied at a
concrete state whose `seentitles` already holds the entry's name. -/
theorem claim1_witness :
    (indStep { seentitles := ["A"], details := initDetails, level := 1 }
        ⟨"A", "critical"⟩).details = initDetails
    ∧ (indStep { seentitles := ["A"], details := initDetails, level := 1 }
        ⟨"A", "critical"⟩).level = max 1 (riskOrdinal "critical") :=
  ⟨claim1_indicator_dedup_counts_not_max.1 _ _ (by decide),
   claim1_indicator_dedup_counts_not_max.2.1 _ _⟩

/-- Claim C5: for every host the computed likelihood indicator is "unknown"
exactly when `credentialed_checks` is false, regardless of the vulnerability
entries, and with `credentialed_checks` false the coverage flag stays
false. -/
theorem claim5_unknown_iff_uncredentialed :
    ∀ (credentialed_checks : Bool) (vulns : List Vuln),
      ((hostIndicator credentialed_checks vulns).2 = "unknown"
          ↔ credentialed_checks = false)
      ∧ (credentialed_checks = false →
          (hostIndicator credentialed_checks vulns).1.coverage = false) := by
  intro cc vulns
  cases cc with
  | false =>
    refine ⟨by simp [hostIndicator], fun _ => ?_⟩
    simp [hostIndicator, runVulns_coverage]
  | true =>
    refine ⟨?_, fun h => by cases h⟩
    simp only [hostIndicator, if_true]
    exact ⟨fun h => absurd h (likelihoodLabel_ne_unknown _), fun h => by cases h⟩

/-- Witness for C5: the equivalence and the coverage statement applied at a
concrete uncredentialed host with one critical vulnerability. -/
theorem claim5_witness :
    ((hostIndicator false [⟨"A", "critical"⟩]).2 = "unknown" ↔ false = false)
    ∧ (hostIndicator false [⟨"A", "critical"⟩]).1.coverage = false :=
  ⟨(claim5_unknown_iff_uncredentialed false [⟨"A", "critical"⟩]).1,
   (claim5_unknown_iff_uncredentialed false [⟨"A", "critical"⟩]).2 rfl⟩

/-- Claim C8: a vulnerability name is recorded as seen even when its risk is
unrecognized: after a first occurrence with unrecognized risk, a later entry
with the same name changes no bucket counter, while the running maximum is
still raised by every appended entry; concretely
`[(A, other), (A, critical)]` with credentialed checks yields all bucket
counts 0 and likelihood indicator "maximum". -/
theorem claim8_unrecognized_risk_marks_seen :
    (∀ (l₁ l₂ : List Vuln) (v w : Vuln), riskOrdinal v.risk = 0 →
      w.name = v.name →
      (runVulns ((l₁ ++ v :: l₂) ++ [w])).details
        = (runVulns (l₁ ++ v :: l₂)).details)
    ∧ (∀ (l : List Vuln) (w : Vuln),
        (runVulns (l ++ [w])).level
          = max (runVulns l).level (riskOrdinal w.risk))
    ∧ hostIndicator true [⟨"A", "other"⟩, ⟨"A", "critical"⟩]
        = ({ maximum := 0, high := 0, medium := 0, low := 0,
             coverage := true }, "maximum") := by
  refine ⟨fun l₁ l₂ v w _ hw => ?_, fun l w => ?_, by decide⟩
  · refine runVulns_append_one_details _ _ ?_
    rw [hw]
    simp
  · rw [runVulns_append_one, indStep_level]

/-- Witness for C8: the dedup-despite-unrecognized-risk part applied at the
concrete list of the claim, with both hypotheses discharged there. -/
theorem claim8_witness :
    (runVulns (([] ++ (⟨"A", "other"⟩ : Vuln) :: []) ++ [⟨"A", "critical"⟩])).details
      = (runVulns ([] ++ (⟨"A", "other"⟩ : Vuln) :: [])).details :=
  claim8_unrecognized_risk_marks_seen.1 [] [] ⟨"A", "other"⟩ ⟨"A", "critical"⟩
    (by decide) rfl

/-- Claim C9: a credentialed host whose vulnerability list is empty or
contains only entries with unrecognized risk gets coverage true, all four
bucket counts 0, and likelihood indicator "low" (the running level stays at
its initial value 1, which maps to "low"). -/
theorem claim9_no_recognized_risk_low :
    ∀ vulns : List Vuln, (∀ v ∈ vulns, riskOrdinal v.risk = 0) →
      hostIndicator true vulns
        = ({ maximum := 0, high := 0, medium := 0, low := 0,
             coverage := true }, "low") := by
  intro vulns h
  have hz := foldl_indStep_zero_risk vulns initIndState h
  simp only [hostIndicator, runVulns, if_true]
  rw [hz.1, hz.2]
  rfl

/-- Witness for C9: the theorem applied to the empty list and to a list with
a single unrecognized-risk entry. -/
theorem claim9_witness :
    hostIndicator true []
      = ({ maximum := 0, high := 0, medium := 0, low := 0,
           coverage := true }, "low")
    ∧ hostIndicator true [⟨"A", "other"⟩]
      = ({ maximum := 0, high := 0, medium := 0, low := 0,
           coverage := true }, "low") :=
  ⟨claim9_no_recognized_risk_low [] (by decide),
   claim9_no_recognized_risk_low [⟨"A", "other"⟩] (by decide)⟩

theorem annotatePass_comp (f : String → OwnerResp) (x : String)
    (hs : List String) (y : HostResult) :
    (fun y : HostResult =>
        if y.hostname ∈ hs then
          { y with owner := some (ownerFrom (f y.hostname)) } else y)
      ((fun y : HostResult =>
          if y.hostname = x then
            { y with owner := some (ownerFrom (f x)) } else y) y)
      = if y.hostname ∈ x :: hs then
          { y with owner := some (ownerFrom (f y.hostname)) } else y := by
  rcases y with ⟨hn, ip, osname, vs, ss, se, cc, ow⟩
  by_cases h1 : hn = x
  · subst h1
    by_cases h2 : hn ∈ hs <;> simp [h2]
  · by_cases h2 : hn ∈ hs <;> simp [h1, h2]

theorem foldl_annotatePass (f : String → OwnerResp) (hosts : List String) :
    ∀ details : List HostResult,
      hosts.foldl (fun ds x => annotatePass (f x) x ds) details
        = details.map (fun y =>
            if y.hostname ∈ hosts then
              { y with owner := some (ownerFrom (f y.hostname)) } else y) := by
  induction hosts with
  | nil => intro details; simp
  | cons x hs ih =>
    intro details
    rw [List.foldl_cons, ih (annotatePass (f x) x details)]
    simp only [annotatePass, List.map_map]
    exact List.map_congr_left (fun y _ => annotatePass_comp f x hs y)

theorem execute_ownership_fst (lookup : String → Option OwnerResp)
    (details : List HostResult) :
    (execute_ownership lookup details).1
      = details.map (fun y =>
          { y with owner := some (ownerFrom (respmap lookup y.hostname)) }) := by
  simp only [execute_ownership]
  rw [foldl_annotatePass (respmap lookup)]
  refine List.map_congr_left (fun y hy => ?_)
  rw [if_pos]
  rw [List.mem_dedup]
  exact List.mem_map_of_mem HostResult.hostname hy

theorem execute_ownership_snd (lookup : String → Option OwnerResp)
    (details : List HostResult) :
    (execute_ownership lookup details).2
      = (details.map HostResult.hostname).dedup := rfl

/-- Claim C6: ownership annotation performs exactly one lookup per distinct
hostname (the queried list has no duplicates and holds exactly the hostnames
of the result set); a failed lookup (`lookup = none`, i.e. a non-200
response) substitutes the default unset record instead of failing; entries
sharing a hostname receive identical owner objects; and every entry's owner
is built (operator, team, v2bkey from triagekey) from its hostname's single
lookup result, the failed case giving operator "unset", team "unset",
v2bkey "unset-unset". -/
theorem claim6_ownership_per_hostname :
    ∀ (lookup : String → Option OwnerResp) (details : List HostResult),
      ((execute_ownership lookup details).2.Nodup
        ∧ ∀ h, h ∈ (execute_ownership lookup details).2
            ↔ h ∈ details.map HostResult.hostname)
      ∧ (∀ y₁ ∈ (execute_ownership lookup details).1,
          ∀ y₂ ∈ (execute_ownership lookup details).1,
            y₁.hostname = y₂.hostname → y₁.owner = y₂.owner)
      ∧ (∀ y ∈ (execute_ownership lookup details).1,
          lookup y.hostname = none →
            y.owner = some { operator := "unset", team := "unset",
                             v2bkey := "unset-unset" })
      ∧ (∀ y ∈ (execute_ownership lookup details).1,
          ∀ o, lookup y.hostname = some o → y.owner = some (ownerFrom o)) := by
  intro lookup details
  have hchar := execute_ownership_fst lookup details
  have hmem : ∀ y ∈ (execute_ownership lookup details).1,
      y.owner = some (ownerFrom (respmap lookup y.hostname))
        ∧ ∃ d ∈ details, y.hostname = d.hostname := by
    intro y hy
    rw [hchar] at hy
    rcases List.mem_map.1 hy with ⟨d, hd, rfl⟩
    exact ⟨rfl, d, hd, rfl⟩
  refine ⟨⟨?_, ?_⟩, ?_, ?_, ?_⟩
  · rw [execute_ownership_snd]
    exact List.nodup_dedup _
  · intro h
    rw [execute_ownership_snd]
    exact List.mem_dedup
  · intro y₁ h₁ y₂ h₂ hname
    rw [(hmem y₁ h₁).1, (hmem y₂ h₂).1, hname]
  · intro y hy hnone
    rw [(hmem y hy).1]
    simp [respmap, hnone, unsetOwnerResp, ownerFrom]
  · intro y hy o ho
    rw [(hmem y hy).1]
    simp [respmap, ho]

/-- Claim C7: running the enrichment pipeline (`execute`) changes each host
entry only by attaching an `owner` field: the zone, the number and order of
host entries, and every field of every entry other than `owner` (its
vulnerabilities list included) are unchanged. -/
theorem claim7_execute_frame :
    ∀ (lookup : String → Option OwnerResp) (c : ScanContent),
      (execute lookup c).2.zone = c.zone
      ∧ (execute lookup c).2.details.length = c.details.length
      ∧ ∀ (i : Nat) (h1 : i < (execute lookup c).2.details.length)
          (h2 : i < c.details.length),
          (execute lookup c).2.details.get ⟨i, h1⟩
            = { c.details.get ⟨i, h2⟩ with
                owner := ((execute lookup c).2.details.get ⟨i, h1⟩).owner } := by
  intro lookup c
  have hd : (execute lookup c).2.details
      = c.details.map (fun y =>
          { y with owner := some (ownerFrom (respmap lookup y.hostname)) }) :=
    execute_ownership_fst lookup c.details
  refine ⟨rfl, by rw [hd]; exact List.length_map _ _, ?_⟩
  intro i h1 h2
  have hget : (execute lookup c).2.details.get ⟨i, h1⟩
      = { c.details.get ⟨i, h2⟩ with
          owner := some (ownerFrom
            (respmap lookup (c.details.get ⟨i, h2⟩).hostname)) } := by
    have := List.get_of_eq hd ⟨i, h1⟩
    rw [this, List.get_map]
  rw [hget]

/-- An ownership-service oracle for concrete tests: hostname h1 resolves,
every other hostname gets a non-200 response. -/
def lookup6 : String → Option OwnerResp := fun h =>
  if h = "h1" then
    some { operator := "opsA", team := "teamA", triagekey := "opsA-teamA" }
  else none

/-- A concrete host entry for tests. -/
def host6a : HostResult :=
  { hostname := "h1", ipaddress := "10.0.0.1", os := "linux",
    vulnerabilities := [], scan_start := "s0", scan_end := "s1",
    credentialed_checks := true }

/-- A second entry sharing hostname h1 (a repeated interface). -/
def host6b : HostResult :=
  { host6a with ipaddress := "10.0.0.2" }

/-- An entry with hostname h2, whose lookup fails. -/
def host6c : HostResult :=
  { host6a with hostname := "h2", ipaddress := "10.0.0.3" }

/-- The owner annotation produced from the successful h1 lookup. -/
def owner6 : Option Owner :=
  some (ownerFrom { operator := "opsA", team := "teamA",
                    triagekey := "opsA-teamA" })

/-- Witness for C6: the ownership theorem applied to a concrete result set
with two entries for h1 and one for h2, the h2 lookup failing; every
membership and lookup hypothesis is discharged by evaluation. -/
theorem claim6_witness :
    (execute_ownership lookup6 [host6a, host6b, host6c]).2.Nodup
    ∧ ({ host6a with owner := owner6 }).owner
        = ({ host6b with owner := owner6 }).owner
    ∧ ({ host6c with owner := some { operator := "unset", team := "unset",
                                     v2bkey := "unset-unset" } }).owner
        = some { operator := "unset", team := "unset",
                 v2bkey := "unset-unset" } :=
  ⟨(claim6_ownership_per_hostname lookup6 [host6a, host6b, host6c]).1.1,
   (claim6_ownership_per_hostname lookup6 [host6a, host6b, host6c]).2.1
     _ (by decide) _ (by decide) (by decide),
   (claim6_ownership_per_hostname lookup6 [host6a, host6b, host6c]).2.2.1
     _ (by decide) (by decide)⟩

/-- An ownership oracle whose lookups all fail, for the C7 witness. -/
def lookup7 : String → Option OwnerResp := fun _ => none

/-- A one-host scan content for the C7 witness. -/
def content7 : ScanContent := { zone := "za", details := [host6a] }

/-- Witness for C7: the frame theorem applied to a concrete content with one
host entry, with the index bounds discharged by evaluation. -/
theorem claim7_witness :
    (execute lookup7 content7).2.zone = content7.zone
    ∧ (execute lookup7 content7).2.details.length = content7.details.length
    ∧ (execute lookup7 content7).2.details.get ⟨0, by decide⟩
        = { content7.details.get ⟨0, by decide⟩ with
            owner := ((execute lookup7 content7).2.details.get
              ⟨0, by decide⟩).owner } :=
  ⟨(claim7_execute_frame lookup7 content7).1,
   (claim7_execute_frame lookup7 content7).2.1,
   (claim7_execute_frame lookup7 content7).2.2 0 (by decide) (by decide)⟩

/-- Counterexample for C2: the claim says a malformed subnet entry fails
when the filter list is loaded and never at the per-target check; in the
code the loader returns the malformed line untouched (no failure), and the
failure happens when an IP target is checked against the filters. -/
theorem claim2_counterexample :
    load_subnet_filters (some (["bogus-subnet"])) = ["bogus-subnet"]
    ∧ target_filter ("10.0.0.1") (["bogus-subnet"]) = Except.error () :=
  ⟨rfl, rfl⟩

/-- Claim C2 as amended: `load_subnet_filters` never inspects the entries
(the raw lines are returned, so a malformed entry is not a load-time
failure); a target that is not an IP literal never fails the check; and an
IP target checked against a filter list whose first entry is malformed
fails at that per-target check. -/
theorem claim2_malformed_fails_at_check :
    (∀ lines : List String, load_subnet_filters (some lines) = lines)
    ∧ (∀ (t : String) (filters : List String), IPAddress t = none →
        target_filter t filters = Except.ok false)
    ∧ (∀ (t : String) (ip : Nat) (f : String) (rest : List String),
        IPAddress t = some ip → IPNetwork f = none →
        target_filter t (f :: rest) = Except.error ()) := by
  refine ⟨fun lines => rfl, fun t filters h => ?_, fun t ip f rest hip hf => ?_⟩
  · simp [target_filter, h]
  · simp [target_filter, hip, target_filter_loop, hf]

/-- Witness for C2 (amended): the three parts applied at concrete inputs, a
hostname target and an IP target against a malformed entry. -/
theorem claim2_witness :
    load_subnet_filters (some (["10.0.0.0/8"])) = ["10.0.0.0/8"]
    ∧ target_filter ("host-a") (["bogus-subnet"]) = Except.ok false
    ∧ target_filter ("10.0.0.1") (["bogus-subnet"]) = Except.error () :=
  ⟨claim2_malformed_fails_at_check.1 ["10.0.0.0/8"],
   claim2_malformed_fails_at_check.2.1 ("host-a") (["bogus-subnet"])
     (by decide),
   claim2_malformed_fails_at_check.2.2 ("10.0.0.1") 167772161
     ("bogus-subnet") [] (by decide) (by decide)⟩

/-- Counterexample for C3: the claim says that for every seconds value below
300 the purge fails and no purge request is issued; in the code the value
100 is passed straight through and the DELETE request is issued with
olderthan 100. -/
theorem claim3_counterexample :
    (purge_scans ("100") ("null")).1
      = [{ ep := "scan/purge", method := Method.delete, olderthan := 100 }] :=
  rfl

/-- Claim C3 as amended: `purge_scans` performs no minimum-value check; for
every seconds string that parses as an integer (of any value, including
values below 300) it delegates to the requestor's purge call, issuing the
DELETE request to scan/purge with that olderthan value, and prints the
returned JSON.  The 300-second minimum in the CLI help text is not enforced
by the client. -/
theorem claim3_purge_delegates_unconditionally :
    ∀ (seconds : String) (n : Int) (body : String),
      int_of_string seconds = some n →
      purge_scans seconds body
        = ([{ ep := "scan/purge", method := Method.delete, olderthan := n }],
           some body) := by
  intro seconds n body h
  simp [purge_scans, requestor_purge_scans, h]

/-- Witness for C3 (amended): the delegation theorem applied at the concrete
sub-300 value 100. -/
theorem claim3_witness :
    purge_scans ("100") ("null")
      = ([{ ep := "scan/purge", method := Method.delete, olderthan := 100 }],
         some ("null")) :=
  claim3_purge_delegates_unconditionally ("100") 100 ("null") (by decide)

/-- Counterexample for C4: the claim says every success (2xx) status yields
the body without failure; in the code a 204 response (a 2xx success) raises,
because the check is against `requests.codes.ok`, which is exactly 200. -/
theorem claim4_counterexample :
    request Method.get (fun _ => (204, "ok")) = Except.error 204 :=
  rfl

/-- Claim C4 as amended: for every request method and response, the
requestor fails with a failure carrying the status code exactly when the
status is not 200 (so non-200 2xx statuses such as 201 or 204 also fail,
not only non-2xx ones); a 200 status yields the body; and no automatic
retry happens (only the first response is ever consulted). -/
theorem claim4_fails_iff_not_200 :
    ∀ (method : Method) (responses : Nat → Nat × String),
      (request method responses = Except.ok (responses 0).2
          ↔ (responses 0).1 = 200)
      ∧ ((responses 0).1 ≠ 200 →
          request method responses = Except.error (responses 0).1)
      ∧ (∀ g : Nat → Nat × String, responses 0 = g 0 →
          request method responses = request method g) := by
  intro method responses
  refine ⟨?_, fun h => ?_, fun g hg => ?_⟩
  · by_cases h : (responses 0).1 = 200 <;> cases method <;> simp [request, h]
  · cases method <;> simp [request, h]
  · cases method <;> simp [request, hg]

/-- Witness for C4 (amended): a 200 response yields the body, a 503
response fails with code 503. -/
theorem claim4_witness :
    (request Method.get (fun _ => (200, "body")) = Except.ok "body"
        ↔ (200 : Nat) = 200)
    ∧ request Method.post (fun _ => (503, "err")) = Except.error 503 :=
  ⟨(claim4_fails_iff_not_200 Method.get (fun _ => (200, "body"))).1,
   (claim4_fails_iff_not_200 Method.post (fun _ => (503, "err"))).2.1
     (by decide)⟩

/-- Claim C10: target filtering preserves the relative order and the
multiplicity of the targets it keeps: whenever the filtering comprehension
succeeds, its result is exactly the original target list with the excluded
targets removed, with no reordering and no deduplication. -/
theorem claim10_filter_preserves_order :
    ∀ (targets filters res : List String),
      filter_targets targets filters = Except.ok res →
      res = targets.filter (fun t => target_kept t filters) := by
  intro targets filters
  induction targets with
  | nil =>
    intro res h
    simp only [filter_targets] at h
    injection h with h
    rw [← h]
    rfl
  | cons t ts ih =>
    intro res h
    simp only [filter_targets] at h
    cases htf : target_filter t filters with
    | error e => rw [htf] at h; cases h
    | ok b =>
      rw [htf] at h
      cases b with
      | true =>
        have hkept : target_kept t filters = false := by
          simp [target_kept, htf]
        rw [List.filter_cons, hkept]
        simpa using ih res h
      | false =>
        cases hrec : filter_targets ts filters with
        | error e => rw [hrec] at h; cases h
        | ok r =>
          rw [hrec] at h
          simp only [Except.map] at h
          injection h with h
          have hkept : target_kept t filters = true := by
            simp [target_kept, htf]
          rw [← h, List.filter_cons, hkept]
          simpa using ih r hrec

/-- Witness for C10: the theorem applied to a concrete target list with two
IP targets inside an excluded /30 and one hostname target, the success
hypothesis discharged by evaluation. -/
theorem claim10_witness :
    ["host-a"]
      = (["10.0.0.1", "host-a", "10.0.0.2"]).filter
          (fun t => target_kept t (["10.0.0.0/30"])) :=
  claim10_filter_preserves_order
    (["10.0.0.1", "host-a", "10.0.0.2"]) (["10.0.0.0/30"]) (["host-a"]) rfl

end Runscan
